import Mathlib

/-!
Shallow embedding of the browser client `src/frontend/script.js` of the
Secure-Web-Application-Architecture repository.

The client keeps its session in two `localStorage` entries (keys
"token" and "is_admin", both holding strings), drives four primary UI
sections (landing, register, login, dashboard) by toggling a `hidden`
class, and talks to a remote API through `fetch`.  DOM reads become
function arguments, DOM writes and `alert` calls become fields of an
explicit result record, and the outcome of a `fetch` (transport
failure, or a status code together with an optionally JSON-parseable
body) is passed in as a value of `FetchResult`.
-/

namespace SecureWebApp

/-- The two durable `localStorage` entries used by the client.
`none` models an absent key (`getItem` returns `null`);
`some s` models a stored string `s`. -/
structure Store where
  token : Option String
  is_admin : Option String
deriving DecidableEq, Repr

/-- Visibility state of the page: the four primary sections, the globe
container, the admin button (`style.display`), and the one-time globe
initialization guard `globeStarted`. -/
structure UI where
  landingVisible : Bool
  registerVisible : Bool
  loginVisible : Bool
  dashboardVisible : Bool
  globeVisible : Bool
  globeStarted : Bool
  adminBtnVisible : Bool
deriving DecidableEq, Repr

/-- Outcome of a `fetch` call as seen by the client code: either the
promise rejects (transport failure, `fail`), or a response arrives with
a status code and a body that `response.json()` either parses to `β`
(`some`) or fails to parse (`none`, which makes `await response.json()`
throw). -/
inductive FetchResult (β : Type) where
  | fail : FetchResult β
  | resp (status : Nat) (body : Option β) : FetchResult β
deriving DecidableEq, Repr

/-- `response.ok` in the browser: status in the inclusive range 200-299. -/
def respOk (status : Nat) : Bool :=
  decide (200 ≤ status) && decide (status ≤ 299)

/-- JS string conversion applied by `localStorage.setItem` to a value
that may be `undefined` (an absent JSON field). -/
def jsStrOfOptStr (v : Option String) : String := v.getD "undefined"

/-- JS string conversion of a boolean-or-undefined value, as performed
by `localStorage.setItem("is_admin", data.is_admin)`. -/
def jsStrOfOptBool (v : Option Bool) : String :=
  match v with
  | some true => "true"
  | some false => "false"
  | none => "undefined"

/-! ## Password strength (`checkStrength`, script.js lines 171-206) -/

/-- The fixed punctuation set of the fifth rule, the character class
of the JS regex in source order. -/
def specialChars : String := "!@#$%^&*(),.?\":\x7b\x7d|<>"

/-- Source check `/[A-Z]/.test(p)`. -/
def hasUpper (p : String) : Bool :=
  p.toList.any (fun c => decide ('A' ≤ c) && decide (c ≤ 'Z'))

/-- Source check `/[a-z]/.test(p)`. -/
def hasLower (p : String) : Bool :=
  p.toList.any (fun c => decide ('a' ≤ c) && decide (c ≤ 'z'))

/-- Source check `/\d/.test(p)` (ASCII digits). -/
def hasDigit (p : String) : Bool :=
  p.toList.any (fun c => decide ('0' ≤ c) && decide (c ≤ '9'))

/-- Source check for the punctuation character class. -/
def hasSpecial (p : String) : Bool :=
  p.toList.any (fun c => specialChars.toList.contains c)

/-- Strength tier shown by the bar class: weak / medium / strong. -/
inductive Tier where
  | weak : Tier
  | medium : Tier
  | strong : Tier
deriving DecidableEq, Repr

/-- Result of one run of `checkStrength`: the five per-rule booleans in
source order, the accumulated score, and the bar tier. -/
structure StrengthReport where
  checks : List Bool
  score : Nat
  tier : Tier
deriving DecidableEq, Repr

/-- `checkStrength` (script.js lines 171-206): five boolean checks in
source order, `score` counts the satisfied ones, and the bar class is
weak for score ≤ 2, medium for score ≤ 4, strong otherwise. -/
def checkStrength (p : String) : StrengthReport :=
  let checks : List Bool :=
    [decide (8 ≤ p.length), hasUpper p, hasLower p, hasDigit p, hasSpecial p]
  let score := checks.count true
  let tier : Tier :=
    if score ≤ 2 then .weak
    else if score ≤ 4 then .medium
    else .strong
  ⟨checks, score, tier⟩

example : (checkStrength "").score = 0 := by decide
example : (checkStrength "").tier = Tier.weak := by decide
example : (checkStrength "Aa1!aaaa").score = 5 := by decide
example : (checkStrength "Aa1!aaaa").tier = Tier.strong := by decide
example : (checkStrength "Aa1aaaaa").score = 4 := by decide
example : (checkStrength "Aa1aaaaa").tier = Tier.medium := by decide
example : (checkStrength "Aa1").score = 3 := by decide
example : (checkStrength "aa").score = 1 := by decide

/-! ## Page switching (script.js lines 129-157) -/

/-- `hideAll`: adds the `hidden` class to the four primary sections and
to the globe container. -/
def hideAll (ui : UI) : UI :=
  { ui with
    landingVisible := false
    registerVisible := false
    loginVisible := false
    dashboardVisible := false
    globeVisible := false }

/-- `initGlobe` (script.js lines 75-124): guarded by `globeStarted`;
on first call it marks the guard and unhides the globe container. -/
def initGlobe (ui : UI) : UI :=
  if ui.globeStarted then ui
  else { ui with globeStarted := true, globeVisible := true }

/-- `showLogin`: hide everything, unhide the login section, start the
globe. -/
def showLogin (ui : UI) : UI :=
  let ui := hideAll ui
  initGlobe { ui with loginVisible := true }

/-- `showRegister`: hide everything, unhide the register section. -/
def showRegister (ui : UI) : UI :=
  let ui := hideAll ui
  { ui with registerVisible := true }

/-- `showDashboard`: hide everything, unhide the dashboard section. -/
def showDashboard (ui : UI) : UI :=
  let ui := hideAll ui
  { ui with dashboardVisible := true }

/-- `logout` (script.js lines 151-157): remove both storage entries,
hide the admin button, hide everything, unhide the landing section. -/
def logout (st : Store) (ui : UI) : Store × UI :=
  let st : Store := { st with token := none, is_admin := none }
  let ui := { ui with adminBtnVisible := false }
  let ui := hideAll ui
  (st, { ui with landingVisible := true })

/-! ## Backend calls (script.js lines 221-358) -/

/-- JSON body of a login response as the client reads it: the fields
`access_token`, `is_admin` and `detail`, each possibly absent. -/
structure LoginBody where
  access_token : Option String
  is_admin : Option Bool
  detail : Option String
deriving DecidableEq, Repr

/-- Everything `login` leaves behind: the storage, the page state, the
alerts raised in order, and whether a network request was issued. -/
structure LoginResult where
  store : Store
  ui : UI
  alerts : List String
  requestIssued : Bool
deriving DecidableEq, Repr

/-- `login` (script.js lines 252-302).  Empty username or password is
rejected locally before `fetch`.  A 429 status alerts and returns
before `response.json()`.  Otherwise the body is parsed (a parse
failure lands in the catch block, like a transport failure); on an ok
status both storage entries are written, the admin button is shown
exactly when `data.is_admin === true`, and the dashboard is shown; on
any other status the server's `detail` is alerted. -/
def login (username password : String) (response : FetchResult LoginBody)
    (st : Store) (ui : UI) : LoginResult :=
  if username = "" ∨ password = "" then
    ⟨st, ui, ["Please fill all fields"], false⟩
  else
    match response with
    | .fail => ⟨st, ui, ["Server not running"], true⟩
    | .resp status body =>
      if status = 429 then
        ⟨st, ui, ["Too many requests. Try again later."], true⟩
      else
        match body with
        | none => ⟨st, ui, ["Server not running"], true⟩
        | some data =>
          if respOk status then
            let st : Store :=
              { token := some (jsStrOfOptStr data.access_token),
                is_admin := some (jsStrOfOptBool data.is_admin) }
            let ui := { ui with adminBtnVisible := data.is_admin = some true }
            ⟨st, showDashboard ui, ["Login successful 🚀"], true⟩
          else
            ⟨st, ui, [jsStrOfOptStr data.detail], true⟩

/-- JSON body of a register response as the client reads it.  The
source renders a structured `detail` with `JSON.stringify`; the field
here is the string that ends up in the alert. -/
structure RegisterBody where
  detail : Option String
deriving DecidableEq, Repr

/-- Everything `register` leaves behind. -/
structure RegisterResult where
  ui : UI
  alerts : List String
  requestIssued : Bool
deriving DecidableEq, Repr

/-- `register` (script.js lines 221-249).  Empty username or password
is rejected locally before `fetch`; on an ok status it alerts success
and shows the login page; otherwise it alerts the server's `detail`. -/
def register (username password : String) (response : FetchResult RegisterBody)
    (ui : UI) : RegisterResult :=
  if username = "" ∨ password = "" then
    ⟨ui, ["Please fill all fields"], false⟩
  else
    match response with
    | .fail => ⟨ui, ["Server not running"], true⟩
    | .resp status body =>
      match body with
      | none => ⟨ui, ["Server not running"], true⟩
      | some data =>
        if respOk status then
          ⟨showLogin ui, ["Registered Successfully ✅"], true⟩
        else
          ⟨ui, [jsStrOfOptStr data.detail], true⟩

/-- JSON body of an analyze response as the client reads it. -/
structure AnalyzeBody where
  risk_level : Option String
  score : Option Int
  action : Option String
  warning : Option String
  detail : Option String
deriving DecidableEq, Repr

/-- The result panel written by a successful analyze: it is unhidden,
its three text nodes are filled (an absent field renders the string
"undefined"), and the risk meter width is set in percent.  `score` and
`meterWidth` are `none` when the body carried no numeric score (the
source then renders "undefined" and a NaN width). -/
structure ResultPanel where
  visible : Bool
  risk : String
  score : Option Int
  action : String
  meterWidth : Option Int
deriving DecidableEq, Repr

/-- Everything `analyzeMessage` leaves behind: the storage (never
written by this function), alerts, whether a request was issued, and
the result panel update (`none` when the panel was not touched). -/
structure AnalyzeResult where
  store : Store
  alerts : List String
  requestIssued : Bool
  panel : Option ResultPanel
deriving DecidableEq, Repr

/-- `analyzeMessage` (script.js lines 305-358).  An empty message is
rejected first, then a missing token (`!token` is also true for the
empty string); only then is the request sent.  A non-ok status alerts
`detail`; an ok status alerts `data.warning` when that is truthy, then
fills the result panel with `risk_level`, `score`, `action` and meter
width `Math.min(score * 10, 100)` percent. -/
def analyzeMessage (message : String) (response : FetchResult AnalyzeBody)
    (st : Store) : AnalyzeResult :=
  if message = "" then
    ⟨st, ["Please enter a message"], false, none⟩
  else if st.token.getD "" = "" then
    ⟨st, ["Please login first"], false, none⟩
  else
    match response with
    | .fail => ⟨st, ["Server error"], true, none⟩
    | .resp status body =>
      match body with
      | none => ⟨st, ["Server error"], true, none⟩
      | some data =>
        if respOk status then
          let warnAlerts : List String :=
            match data.warning with
            | some w => if w = "" then [] else [w]
            | none => []
          ⟨st, warnAlerts, true,
            some ⟨true, jsStrOfOptStr data.risk_level, data.score,
                  jsStrOfOptStr data.action,
                  data.score.map (fun s => min (s * 10) 100)⟩⟩
        else
          ⟨st, [jsStrOfOptStr data.detail], true, none⟩

/-! ## Whole-client transition system (for the reachability claims) -/

/-- One user-triggered client operation, together with the network
environment's answer where one is consulted. -/
inductive Op where
  | doLogin (u p : String) (r : FetchResult LoginBody)
  | doRegister (u p : String) (r : FetchResult RegisterBody)
  | doAnalyze (m : String) (r : FetchResult AnalyzeBody)
  | doLogout
  | doShowLogin
  | doShowRegister
  | doShowDashboard

/-- Joint storage and page state. -/
structure AppState where
  store : Store
  ui : UI
deriving DecidableEq, Repr

/-- Effect of one operation on the joint state. -/
def step (s : AppState) (op : Op) : AppState :=
  match op with
  | .doLogin u p r =>
    let res := login u p r s.store s.ui
    ⟨res.store, res.ui⟩
  | .doRegister u p r => ⟨s.store, (register u p r s.ui).ui⟩
  | .doAnalyze m r => ⟨(analyzeMessage m r s.store).store, s.ui⟩
  | .doLogout =>
    let res := logout s.store s.ui
    ⟨res.1, res.2⟩
  | .doShowLogin => ⟨s.store, showLogin s.ui⟩
  | .doShowRegister => ⟨s.store, showRegister s.ui⟩
  | .doShowDashboard => ⟨s.store, showDashboard s.ui⟩

/-- State of a fresh browser profile: no storage entries, landing
section visible. -/
def initState : AppState :=
  ⟨⟨none, none⟩, ⟨true, false, false, false, false, false, false⟩⟩

/-- Running a sequence of operations from a state. -/
def run (s : AppState) (ops : List Op) : AppState := ops.foldl step s

/-- The session-store consistency invariant: the token entry and the
role-flag entry are present or absent together. -/
def consistent (st : Store) : Prop := st.token.isSome = st.is_admin.isSome

instance (st : Store) : Decidable (consistent st) := by
  unfold consistent; infer_instance

/-! ## Helper lemmas -/

theorem hasUpper_iff (p : String) :
    hasUpper p = true ↔ ∃ c ∈ p.toList, 'A' ≤ c ∧ c ≤ 'Z' := by
  simp [hasUpper]

theorem hasLower_iff (p : String) :
    hasLower p = true ↔ ∃ c ∈ p.toList, 'a' ≤ c ∧ c ≤ 'z' := by
  simp [hasLower]

theorem hasDigit_iff (p : String) :
    hasDigit p = true ↔ ∃ c ∈ p.toList, '0' ≤ c ∧ c ≤ '9' := by
  simp [hasDigit]

theorem hasSpecial_iff (p : String) :
    hasSpecial p = true ↔ ∃ c ∈ p.toList, c ∈ specialChars.toList := by
  simp [hasSpecial]

theorem count_true_five (b1 b2 b3 b4 b5 : Bool) :
    [b1, b2, b3, b4, b5].count true =
      (if b1 = true then 1 else 0) + (if b2 = true then 1 else 0)
      + (if b3 = true then 1 else 0) + (if b4 = true then 1 else 0)
      + (if b5 = true then 1 else 0) := by
  cases b1 <;> cases b2 <;> cases b3 <;> cases b4 <;> cases b5 <;> rfl

theorem checkStrength_score_le_five (p : String) : (checkStrength p).score ≤ 5 := by
  have h := List.count_le_length true
    [decide (8 ≤ p.length), hasUpper p, hasLower p, hasDigit p, hasSpecial p]
  simpa [checkStrength] using h

/-! ## Claims -/

/-- Claim C5: for every password string, the strength evaluator is a
total function (hence deterministic), its score is the count of the
five rule predicates — length at least 8, an uppercase letter, a
lowercase letter, a digit, a symbol from the fixed punctuation set —
that hold for the string, and the bar tier is weak exactly when the
score is at most 2, medium exactly when it is 3 or 4, and strong
exactly when it is 5. -/
theorem checkStrength_score_counts_rules_and_tier_exact (p : String) :
    ((checkStrength p).score =
      (if 8 ≤ p.length then 1 else 0)
      + (if ∃ c ∈ p.toList, 'A' ≤ c ∧ c ≤ 'Z' then 1 else 0)
      + (if ∃ c ∈ p.toList, 'a' ≤ c ∧ c ≤ 'z' then 1 else 0)
      + (if ∃ c ∈ p.toList, '0' ≤ c ∧ c ≤ '9' then 1 else 0)
      + (if ∃ c ∈ p.toList, c ∈ specialChars.toList then 1 else 0))
    ∧ ((checkStrength p).tier = Tier.weak ↔ (checkStrength p).score ≤ 2)
    ∧ ((checkStrength p).tier = Tier.medium ↔
        ((checkStrength p).score = 3 ∨ (checkStrength p).score = 4))
    ∧ ((checkStrength p).tier = Tier.strong ↔ (checkStrength p).score = 5) := by
  have hle : (checkStrength p).score ≤ 5 := checkStrength_score_le_five p
  have hscore : (checkStrength p).score =
      [decide (8 ≤ p.length), hasUpper p, hasLower p, hasDigit p,
        hasSpecial p].count true := rfl
  have htier : (checkStrength p).tier =
      (if (checkStrength p).score ≤ 2 then Tier.weak
       else if (checkStrength p).score ≤ 4 then Tier.medium
       else Tier.strong) := rfl
  refine ⟨?_, ?_, ?_, ?_⟩
  · rw [hscore, count_true_five]
    simp only [decide_eq_true_iff, hasUpper_iff, hasLower_iff, hasDigit_iff,
      hasSpecial_iff]
  · rw [htier]
    split_ifs with h1 h2 <;> simp_all
  · rw [htier]
    split_ifs with h1 h2 <;> simp_all <;> omega
  · rw [htier]
    split_ifs with h1 h2 <;> simp_all <;> omega

/-- Number of the four primary sections currently visible. -/
def primaryCount (ui : UI) : Nat :=
  ui.landingVisible.toNat + ui.registerVisible.toNat
  + ui.loginVisible.toNat + ui.dashboardVisible.toNat

/-- Claim C9: after every UI transition — show Login, show Register,
show Dashboard, or logout returning to Landing — exactly one of the
four primary sections is visible and the other three are hidden. -/
theorem transitions_leave_exactly_one_primary_visible (st : Store) (ui : UI) :
    primaryCount (showLogin ui) = 1
    ∧ primaryCount (showRegister ui) = 1
    ∧ primaryCount (showDashboard ui) = 1
    ∧ primaryCount (logout st ui).2 = 1 := by
  rcases ui with ⟨l, r, lo, d, g, gs, a⟩
  cases gs <;>
    simp [primaryCount, showLogin, showRegister, showDashboard, logout,
      hideAll, initGlobe]

/-- Claim C7: for every register or login call in which the username or
the password is the empty string, the call alerts the validation
message ("Please fill all fields") and no network request is issued;
storage and page state are untouched. -/
theorem empty_credentials_rejected_locally (u p : String)
    (rr : FetchResult RegisterBody) (rl : FetchResult LoginBody)
    (st : Store) (ui ui' : UI) (h : u = "" ∨ p = "") :
    register u p rr ui = ⟨ui, ["Please fill all fields"], false⟩
    ∧ login u p rl st ui' = ⟨st, ui', ["Please fill all fields"], false⟩ := by
  rcases h with h | h <;> subst h <;> simp [register, login]

/-- Witness for C7 at username "" and password "x". -/
theorem empty_credentials_rejected_locally_witness :
    register "" "x" FetchResult.fail
        ⟨true, false, false, false, false, false, false⟩ =
      ⟨⟨true, false, false, false, false, false, false⟩,
        ["Please fill all fields"], false⟩
    ∧ login "" "x" FetchResult.fail ⟨none, none⟩
        ⟨true, false, false, false, false, false, false⟩ =
      ⟨⟨none, none⟩, ⟨true, false, false, false, false, false, false⟩,
        ["Please fill all fields"], false⟩ :=
  empty_credentials_rejected_locally "" "x" FetchResult.fail FetchResult.fail
    ⟨none, none⟩ ⟨true, false, false, false, false, false, false⟩
    ⟨true, false, false, false, false, false, false⟩ (Or.inl rfl)

/-- Claim C2: a login call answered with HTTP status 429 alerts the
rate-limit message and returns before `response.json()`: the result is
the same for every body (parseable or not), the storage is exactly the
pre-call storage, and the page state is unchanged. -/
theorem login_429_signals_and_preserves_state (u p : String)
    (b : Option LoginBody) (st : Store) (ui : UI)
    (hu : u ≠ "") (hp : p ≠ "") :
    login u p (.resp 429 b) st ui =
      ⟨st, ui, ["Too many requests. Try again later."], true⟩ := by
  simp [login, hu, hp]

/-- Witness for C2 at concrete credentials, an unparseable body and a
non-empty prior session. -/
theorem login_429_signals_and_preserves_state_witness :
    "alice" ≠ "" ∧ "pw" ≠ "" ∧
    login "alice" "pw" (.resp 429 none) ⟨some "t", some "true"⟩
        ⟨false, false, false, true, false, true, true⟩ =
      ⟨⟨some "t", some "true"⟩, ⟨false, false, false, true, false, true, true⟩,
        ["Too many requests. Try again later."], true⟩ :=
  ⟨by decide, by decide,
    login_429_signals_and_preserves_state "alice" "pw" none
      ⟨some "t", some "true"⟩ ⟨false, false, false, true, false, true, true⟩
      (by decide) (by decide)⟩

/-- Claim C1: a login call with non-empty credentials whose response is
OK (2xx) and parses with an `access_token` field writes both storage
entries (the token, and the stringified admin flag), shows the
dashboard and hides the other three primary sections, and makes the
admin button visible exactly when the body's `is_admin` field is the
boolean true — in particular an absent `is_admin` field leaves it
hidden. -/
theorem login_ok_saves_session_and_shows_dashboard
    (u p tok : String) (adm : Option Bool) (d : Option String)
    (status : Nat) (st : Store) (ui : UI)
    (hu : u ≠ "") (hp : p ≠ "") (hok : respOk status = true) :
    login u p (.resp status (some ⟨some tok, adm, d⟩)) st ui =
      ⟨⟨some tok, some (jsStrOfOptBool adm)⟩,
        showDashboard { ui with adminBtnVisible := adm = some true },
        ["Login successful 🚀"], true⟩
    ∧ (login u p (.resp status (some ⟨some tok, adm, d⟩)) st ui).store =
        ⟨some tok, some (jsStrOfOptBool adm)⟩
    ∧ (login u p (.resp status (some ⟨some tok, adm, d⟩)) st ui).ui.dashboardVisible = true
    ∧ (login u p (.resp status (some ⟨some tok, adm, d⟩)) st ui).ui.landingVisible = false
    ∧ (login u p (.resp status (some ⟨some tok, adm, d⟩)) st ui).ui.registerVisible = false
    ∧ (login u p (.resp status (some ⟨some tok, adm, d⟩)) st ui).ui.loginVisible = false
    ∧ ((login u p (.resp status (some ⟨some tok, adm, d⟩)) st ui).ui.adminBtnVisible = true
        ↔ adm = some true) := by
  have h429 : status ≠ 429 := by
    rintro rfl
    simp [respOk] at hok
  refine ⟨?_, ?_⟩
  · simp [login, hu, hp, h429, hok, jsStrOfOptStr]
  · simp [login, hu, hp, h429, hok, jsStrOfOptStr, showDashboard, hideAll]

/-- Witness for C1 at an admin login and at a login whose body lacks
the `is_admin` field. -/
theorem login_ok_saves_session_and_shows_dashboard_witness :
    "alice" ≠ "" ∧ "pw" ≠ "" ∧ respOk 200 = true ∧
    (login "alice" "pw" (.resp 200 (some ⟨some "abc", some true, none⟩))
        ⟨none, none⟩ ⟨false, false, true, false, true, true, false⟩).store =
      ⟨some "abc", some "true"⟩ ∧
    ((login "alice" "pw" (.resp 200 (some ⟨some "abc", some true, none⟩))
        ⟨none, none⟩ ⟨false, false, true, false, true, true, false⟩).ui.adminBtnVisible = true
      ↔ some true = some true) ∧
    ((login "alice" "pw" (.resp 200 (some ⟨some "abc", none, none⟩))
        ⟨none, none⟩ ⟨false, false, true, false, true, true, false⟩).ui.adminBtnVisible = true
      ↔ (none : Option Bool) = some true) :=
  ⟨by decide, by decide, by decide,
    (login_ok_saves_session_and_shows_dashboard "alice" "pw" "abc" (some true)
      none 200 ⟨none, none⟩ ⟨false, false, true, false, true, true, false⟩
      (by decide) (by decide) (by decide)).2.1,
    (login_ok_saves_session_and_shows_dashboard "alice" "pw" "abc" (some true)
      none 200 ⟨none, none⟩ ⟨false, false, true, false, true, true, false⟩
      (by decide) (by decide) (by decide)).2.2.2.2.2.2,
    (login_ok_saves_session_and_shows_dashboard "alice" "pw" "abc" none
      none 200 ⟨none, none⟩ ⟨false, false, true, false, true, true, false⟩
      (by decide) (by decide) (by decide)).2.2.2.2.2.2⟩

/-- `analyzeMessage` never writes the session storage: the store it
returns is the store it was given, in every branch. -/
theorem analyzeMessage_store_eq (m : String) (r : FetchResult AnalyzeBody)
    (st : Store) : (analyzeMessage m r st).store = st := by
  rcases r with _ | ⟨status, _ | data⟩ <;>
    simp [analyzeMessage] <;> split_ifs <;> simp

/-- Claim C4: `analyzeMessage` checks its local preconditions before
any network request: an empty message alerts the validation message and
issues no request; a non-empty message with no loaded token alerts the
login-first message and issues no request; and a request is issued only
when the message is non-empty and a non-empty token is loaded. -/
theorem analyze_preconditions_checked_before_request (m : String)
    (r : FetchResult AnalyzeBody) (st : Store) :
    (m = "" →
      analyzeMessage m r st = ⟨st, ["Please enter a message"], false, none⟩)
    ∧ (m ≠ "" → st.token = none →
      analyzeMessage m r st = ⟨st, ["Please login first"], false, none⟩)
    ∧ ((analyzeMessage m r st).requestIssued = true →
      m ≠ "" ∧ ∃ t, st.token = some t ∧ t ≠ "") := by
  refine ⟨?_, ?_, ?_⟩
  · rintro rfl
    simp [analyzeMessage]
  · rintro hm htok
    simp [analyzeMessage, hm, htok]
  · intro hreq
    by_cases hm : m = ""
    · subst hm; simp [analyzeMessage] at hreq
    · refine ⟨hm, ?_⟩
      rcases htok : st.token with _ | t
      · simp [analyzeMessage, hm, htok] at hreq
      · refine ⟨t, rfl, ?_⟩
        rintro rfl
        simp [analyzeMessage, hm, htok] at hreq

/-- Witness for C4: empty message, and missing token with message
"hi". -/
theorem analyze_preconditions_checked_before_request_witness :
    analyzeMessage "" FetchResult.fail ⟨none, none⟩ =
      ⟨⟨none, none⟩, ["Please enter a message"], false, none⟩
    ∧ analyzeMessage "hi" FetchResult.fail ⟨none, some "true"⟩ =
      ⟨⟨none, some "true"⟩, ["Please login first"], false, none⟩ :=
  ⟨(analyze_preconditions_checked_before_request "" FetchResult.fail
      ⟨none, none⟩).1 rfl,
    (analyze_preconditions_checked_before_request "hi" FetchResult.fail
      ⟨none, some "true"⟩).2.1 (by decide) rfl⟩

/-- Claim C10: the empty-message check runs before the missing-token
check: an empty message yields the validation alert and no request for
every store, including one with no token, and the login-first alert is
only ever produced for a non-empty message. -/
theorem analyze_empty_message_checked_before_token (m : String)
    (r : FetchResult AnalyzeBody) (st : Store) :
    (analyzeMessage "" r st).alerts = ["Please enter a message"]
    ∧ (analyzeMessage "" r st).requestIssued = false
    ∧ ((analyzeMessage m r st).alerts = ["Please login first"] → m ≠ "") := by
  refine ⟨by simp [analyzeMessage], by simp [analyzeMessage], ?_⟩
  intro halert
  rintro rfl
  simp [analyzeMessage] at halert

/-- Witness for C10 at a store with no token and message "hi". -/
theorem analyze_empty_message_checked_before_token_witness :
    (analyzeMessage "" FetchResult.fail ⟨none, none⟩).alerts =
      ["Please enter a message"]
    ∧ (analyzeMessage "" FetchResult.fail ⟨none, none⟩).requestIssued = false
    ∧ ((analyzeMessage "hi" FetchResult.fail ⟨none, none⟩).alerts =
        ["Please login first"] → "hi" ≠ "") :=
  analyze_empty_message_checked_before_token "hi" FetchResult.fail ⟨none, none⟩

/-- Counterexample to claim C8 as stated: the claim says the rendered
meter width is the score times 10 clamped to the range [0, 100], but at
score -1 the code computes `Math.min(-1 * 10, 100) = -10` percent,
while clamping to [0, 100] would give 0. -/
theorem analyze_meter_width_not_clamped_below :
    (analyzeMessage "hello"
        (FetchResult.resp 200
          (some ⟨some "low", some (-1), some "none", none, none⟩))
        ⟨some "tok", some "false"⟩).panel =
      some ⟨true, "low", some (-1), "none", some (-10)⟩
    ∧ (-10 : Int) ≠ max 0 (min ((-1 : Int) * 10) 100) := by
  constructor
  · simp [analyzeMessage, respOk, jsStrOfOptStr]
  · decide

/-- Claim C8, amended: for every successful analyze response with
numeric score s, the rendered meter width is `min (s * 10) 100` percent
— capped above at 100 but not clamped below at 0 — while the displayed
score value is s unchanged. -/
theorem analyze_ok_meter_width_min_and_score_unchanged
    (m tok : String) (status : Nat) (risk act w d : Option String)
    (s : Int) (adm : Option String)
    (hm : m ≠ "") (ht : tok ≠ "") (hok : respOk status = true) :
    (analyzeMessage m (.resp status (some ⟨risk, some s, act, w, d⟩))
        ⟨some tok, adm⟩).panel =
      some ⟨true, jsStrOfOptStr risk, some s, jsStrOfOptStr act,
        some (min (s * 10) 100)⟩ := by
  simp [analyzeMessage, hm, ht, hok]

/-- Witness for the amended C8 at score 2: meter width 20, displayed
score 2. -/
theorem analyze_ok_meter_width_min_and_score_unchanged_witness :
    "hello" ≠ "" ∧ "tok" ≠ "" ∧ respOk 200 = true ∧
    (analyzeMessage "hello"
        (FetchResult.resp 200
          (some ⟨some "low", some 2, some "none", none, none⟩))
        ⟨some "tok", some "false"⟩).panel =
      some ⟨true, jsStrOfOptStr (some "low"), some 2,
        jsStrOfOptStr (some "none"), some (min (2 * 10) 100)⟩ :=
  ⟨by decide, by decide, by decide,
    analyze_ok_meter_width_min_and_score_unchanged "hello" "tok" 200
      (some "low") (some "none") none none 2 (some "false")
      (by decide) (by decide) (by decide)⟩

/-- Claim C3: every error outcome of login or analyze — transport
failure, rate limiting, or a server-rejected non-2xx status — leaves
the session storage exactly as it was and raises a user-visible alert,
a generic connectivity message in the transport-failure case. -/
theorem error_outcomes_preserve_session_and_alert
    (u p m : String) (st st' : Store) (ui : UI)
    (hu : u ≠ "") (hp : p ≠ "") :
    ((login u p .fail st ui).store = st
      ∧ (login u p .fail st ui).alerts = ["Server not running"])
    ∧ (∀ b, (login u p (.resp 429 b) st ui).store = st
      ∧ (login u p (.resp 429 b) st ui).alerts ≠ [])
    ∧ (∀ status body, respOk status = false →
        (login u p (.resp status body) st ui).store = st
        ∧ (login u p (.resp status body) st ui).alerts ≠ [])
    ∧ (∀ r, (analyzeMessage m r st').store = st')
    ∧ (m ≠ "" → st'.token.getD "" ≠ "" →
        (analyzeMessage m .fail st').alerts = ["Server error"])
    ∧ (∀ status data, m ≠ "" → st'.token.getD "" ≠ "" →
        respOk status = false →
        (analyzeMessage m (.resp status (some data)) st').alerts =
          [jsStrOfOptStr data.detail]) := by
  refine ⟨⟨?_, ?_⟩, ?_, ?_, ?_, ?_, ?_⟩
  · simp [login, hu, hp]
  · simp [login, hu, hp]
  · intro b
    simp [login, hu, hp]
  · intro status body hbad
    rcases body with _ | data <;>
      by_cases h429 : status = 429 <;>
      simp [login, hu, hp, h429, hbad]
  · intro r
    exact analyzeMessage_store_eq m r st'
  · intro hm htok
    simp [analyzeMessage, hm, htok]
  · intro status data hm htok hbad
    simp [analyzeMessage, hm, htok, hbad]

/-- Witness for C3: concrete error outcomes against a non-empty prior
session. -/
theorem error_outcomes_preserve_session_and_alert_witness :
    (login "alice" "pw" .fail ⟨some "t", some "true"⟩
        ⟨true, false, false, false, false, false, false⟩).store =
      ⟨some "t", some "true"⟩
    ∧ (login "alice" "pw" (.resp 429 none) ⟨some "t", some "true"⟩
        ⟨true, false, false, false, false, false, false⟩).store =
      ⟨some "t", some "true"⟩
    ∧ (login "alice" "pw" (.resp 401 (some ⟨none, none, some "bad creds"⟩))
        ⟨some "t", some "true"⟩
        ⟨true, false, false, false, false, false, false⟩).store =
      ⟨some "t", some "true"⟩
    ∧ (analyzeMessage "hi" .fail ⟨some "t", some "true"⟩).store =
      ⟨some "t", some "true"⟩
    ∧ (analyzeMessage "hi" .fail ⟨some "t", some "true"⟩).alerts =
      ["Server error"] :=
  ⟨(error_outcomes_preserve_session_and_alert "alice" "pw" "hi"
      ⟨some "t", some "true"⟩ ⟨some "t", some "true"⟩
      ⟨true, false, false, false, false, false, false⟩
      (by decide) (by decide)).1.1,
    ((error_outcomes_preserve_session_and_alert "alice" "pw" "hi"
      ⟨some "t", some "true"⟩ ⟨some "t", some "true"⟩
      ⟨true, false, false, false, false, false, false⟩
      (by decide) (by decide)).2.1 none).1,
    ((error_outcomes_preserve_session_and_alert "alice" "pw" "hi"
      ⟨some "t", some "true"⟩ ⟨some "t", some "true"⟩
      ⟨true, false, false, false, false, false, false⟩
      (by decide) (by decide)).2.2.1 401 (some ⟨none, none, some "bad creds"⟩)
      (by decide)).1,
    ((error_outcomes_preserve_session_and_alert "alice" "pw" "hi"
      ⟨some "t", some "true"⟩ ⟨some "t", some "true"⟩
      ⟨true, false, false, false, false, false, false⟩
      (by decide) (by decide)).2.2.2.1 .fail),
    ((error_outcomes_preserve_session_and_alert "alice" "pw" "hi"
      ⟨some "t", some "true"⟩ ⟨some "t", some "true"⟩
      ⟨true, false, false, false, false, false, false⟩
      (by decide) (by decide)).2.2.2.2.1 (by decide) (by decide))⟩

/-- `login` preserves store consistency: it either leaves the storage
untouched or writes both entries. -/
theorem login_store_consistent (u p : String) (r : FetchResult LoginBody)
    (st : Store) (ui : UI) (h : consistent st) :
    consistent (login u p r st ui).store := by
  rcases r with _ | ⟨status, _ | data⟩ <;>
    simp [login] <;> split_ifs <;>
    first
    | exact h
    | simp [consistent]

/-- Every operation preserves store consistency. -/
theorem step_store_consistent (s : AppState) (op : Op)
    (h : consistent s.store) : consistent (step s op).store := by
  cases op with
  | doLogin u p r => exact login_store_consistent u p r s.store s.ui h
  | doRegister u p r => exact h
  | doAnalyze m r => rw [step, analyzeMessage_store_eq]; exact h
  | doLogout => simp [step, logout, consistent]
  | doShowLogin => exact h
  | doShowRegister => exact h
  | doShowDashboard => exact h

/-- Store consistency is preserved along every run. -/
theorem run_store_consistent (ops : List Op) (s : AppState)
    (h : consistent s.store) : consistent (run s ops).store := by
  induction ops generalizing s with
  | nil => exact h
  | cons op rest ih => exact ih (step s op) (step_store_consistent s op h)

/-- Claim C6: from a fresh profile, every reachable storage state has
the token entry and the role-flag entry present or absent together (the
two are always written together or cleared together), and on load the
absence of either entry makes a protected action behave as
unauthenticated: analyze alerts the login-first message, issues no
request, and leaves the storage unchanged. -/
theorem session_entries_written_and_cleared_together
    (ops : List Op) (st : Store) (m : String) (r : FetchResult AnalyzeBody)
    (hm : m ≠ "") :
    consistent (run initState ops).store
    ∧ (consistent st → (st.token = none ∨ st.is_admin = none) →
        (analyzeMessage m r st).requestIssued = false
        ∧ (analyzeMessage m r st).alerts = ["Please login first"]
        ∧ (analyzeMessage m r st).store = st) := by
  constructor
  · exact run_store_consistent ops initState (by simp [initState, consistent])
  · intro hc habs
    have htok : st.token = none := by
      rcases habs with h | h
      · exact h
      · unfold consistent at hc
        rw [h] at hc
        simpa using hc
    refine ⟨?_, ?_, ?_⟩ <;> simp [analyzeMessage, hm, htok]

/-- Witness for C6: a run that logs in (writing both entries) and then
logs out (clearing both), and an analyze against the cleared store. -/
theorem session_entries_written_and_cleared_together_witness :
    consistent (run initState
      [Op.doLogin "alice" "pw" (.resp 200 (some ⟨some "t", some true, none⟩)),
        Op.doLogout]).store
    ∧ (consistent ⟨none, none⟩ →
        ((⟨none, none⟩ : Store).token = none
          ∨ (⟨none, none⟩ : Store).is_admin = none) →
        (analyzeMessage "hi" FetchResult.fail ⟨none, none⟩).requestIssued = false
        ∧ (analyzeMessage "hi" FetchResult.fail ⟨none, none⟩).alerts =
          ["Please login first"]
        ∧ (analyzeMessage "hi" FetchResult.fail ⟨none, none⟩).store =
          ⟨none, none⟩) :=
  session_entries_written_and_cleared_together
    [Op.doLogin "alice" "pw" (.resp 200 (some ⟨some "t", some true, none⟩)),
      Op.doLogout]
    ⟨none, none⟩ "hi" FetchResult.fail (by decide)

end SecureWebApp
